import Mathlib

/-!
Shallow embedding of `src/app.py` (`run_code`, the `/run` Flask handler)
and the constants at the top of the file, together with theorems checking
the claims of the specification about it.

The handler is modelled as a pure function from the decoded request body
and an environment (the outcome that `subprocess.run` produces for the
constructed docker command, the temp directory that `tempfile.mkdtemp`
returned, and whether the best-effort `os.remove`/`os.rmdir` calls
succeed) to the HTTP response together with a record of the side effects
the handler performed.
-/

namespace App

/-- MAX_CHARS = 5000 (src/app.py line 10). -/
def MAX_CHARS : Nat := 5000

/-- DOCKER_IMAGE = "python:3.11-slim" (line 11). -/
def DOCKER_IMAGE : String := "python:3.11-slim"

/-- TIMEOUT_SECONDS = 10, the inner wall-clock limit passed to the
in-container `timeout` wrapper (line 12). -/
def TIMEOUT_SECONDS : Nat := 10

/-- MEMORY_LIMIT = "128m" (line 13). -/
def MEMORY_LIMIT : String := "128m"

/-- READ_ONLY = True (line 14). -/
def READ_ONLY : Bool := true

/-- The value `TIMEOUT_SECONDS + 2` passed as the `timeout=` argument of
`subprocess.run` (line 76): the outer supervisory timeout. -/
def OUTER_TIMEOUT : Nat := TIMEOUT_SECONDS + 2

/-- MAX_OUTPUT = 10000, the per-stream output ceiling (line 91). -/
def MAX_OUTPUT : Nat := 10000

/-- The fixed truncation marker appended to an over-long stream
(lines 93 and 95). -/
def truncMarker : String := "\n... (truncated)\n"

/-- The first `n` characters of `s`, as the Python slice `s[:n]`. -/
def strTake (s : String) (n : Nat) : String := String.mk (s.data.take n)

/-- Lines 92-95: a captured stream longer than MAX_OUTPUT characters is
cut to its first MAX_OUTPUT characters with the marker appended;
otherwise it is returned unchanged. -/
def capOutput (s : String) : String :=
  if s.length > MAX_OUTPUT then strTake s MAX_OUTPUT ++ truncMarker else s

/-- Does the character list `needle` occur at the head of `hay`? -/
def startsWithList : List Char → List Char → Bool
  | [], _ => true
  | _ :: _, [] => false
  | a :: as, b :: bs => (a == b) && startsWithList as bs

/-- Does the character list `needle` occur anywhere inside `hay`? -/
def occursIn (needle : List Char) : List Char → Bool
  | [] => needle.isEmpty
  | c :: rest => startsWithList needle (c :: rest) || occursIn needle rest

/-- The Python substring test `needle in hay` on strings. -/
def strContains (hay needle : String) : Bool := occursIn needle.data hay.data

/-- Line 80 and line 88: the timeout message, which cites TIMEOUT_SECONDS. -/
def timeoutMsg : String :=
  "Execution timed out after " ++ toString TIMEOUT_SECONDS ++ " seconds."

/-- The value of `data.get("code", "")` as seen by the handler: the field
is absent from the JSON body (or the body is not a JSON object), present
but not a JSON string, or a string. -/
inductive CodeField where
  | missing
  | nonString
  | str (s : String)
deriving DecidableEq, Repr

/-- The outcome of the `subprocess.run` call on the docker command
(lines 72-77): it completed and yielded a return code and captured
stdout/stderr text (with `capture_output=True, text=True` both streams
are always strings, so `proc.stdout or ""` at line 82 is the identity),
it raised `subprocess.TimeoutExpired` because the outer `timeout=`
expired, or it raised an OS-level exception before a process ran
(for example `FileNotFoundError` when the docker binary is absent). -/
inductive ProcOutcome where
  | completed (returncode : Int) (stdout stderr : String)
  | timeoutExpired
  | launchException
deriving DecidableEq, Repr

/-- The environment a single request executes in: what the temp
directory allocator returned, how the subprocess call turns out, and
whether the best-effort `os.remove`/`os.rmdir` at lines 106-107 would
succeed if reached. -/
structure Env where
  workdir : String
  proc : ProcOutcome
  removeOk : Bool
deriving DecidableEq, Repr

/-- A JSON response body produced by the handler: either the three-field
object built at lines 98-102, or the single-field `{"error": msg}`
object used by the validation and timeout branches. -/
inductive Body where
  | fields (stdout stderr : String) (exit_code : Int)
  | errorMsg (msg : String)
deriving DecidableEq, Repr

/-- What the handler call turns into at the HTTP layer: a returned
`(jsonify(body), status)` pair, or an exception escaping the handler
(which Flask reports as a 500 server error). -/
inductive HandlerResult where
  | response (body : Body) (status : Nat)
  | exception
deriving DecidableEq, Repr

/-- Whether a body has the `{stdout, stderr, exit_code}` shape. -/
def Body.isFields : Body → Bool
  | Body.fields _ _ _ => true
  | Body.errorMsg _ => false

/-- The result of one handler invocation: the HTTP-level result plus a
record of the side effects performed on the way to it. -/
structure RunResult where
  result : HandlerResult
  /-- Lines 35-39 ran: the temp directory was created and script.py written. -/
  workspaceCreated : Bool
  /-- The cleanup block at lines 105-109 was reached and executed. -/
  cleanupExecuted : Bool
  /-- The docker command at lines 49-68 was handed to `subprocess.run`. -/
  containerInvoked : Bool
  /-- Some kill/stop command for the container was issued after a timeout. -/
  killIssued : Bool
  /-- The argument vector handed to `subprocess.run`, when one was built. -/
  dockerInvocation : Option (List String)
deriving DecidableEq, Repr

/-- The `os.path.join(workdir, "script.py")` path of line 37. -/
def script_path (workdir : String) : String := workdir ++ "/script.py"

/-- Lines 48-68: the docker argument vector. It is a function of the
workspace paths only; no part of it is derived from the submitted code. -/
def docker_cmd (workdir : String) : List String :=
  (["docker", "run", "--rm",
    "--network", "none",
    "--memory", MEMORY_LIMIT,
    "--pids-limit", "64",
    "--cpus", "0.5"]
   ++ (if READ_ONLY then ["--read-only"] else [])
   ++ ["-v", script_path workdir ++ ":/app/script.py:ro",
       "-v", workdir ++ ":/app/writable"]
   ++ [DOCKER_IMAGE, "timeout", toString TIMEOUT_SECONDS,
       "python", "-u", "/app/script.py"])

/-- A 400 validation response with no side effects performed. -/
def rejected (msg : String) : RunResult :=
  ⟨HandlerResult.response (Body.errorMsg msg) 400, false, false, false, false, none⟩

/-- The body of `run_code` after validation passed (lines 34-111): create
the workspace, run the docker command, classify the outcome, truncate
the streams, clean up, respond. -/
def run_accepted (env : Env) : RunResult :=
  match env.proc with
  | ProcOutcome.timeoutExpired =>
      -- line 78-80: return the timeout message; no kill, no cleanup
      ⟨HandlerResult.response (Body.errorMsg timeoutMsg) 200,
        true, false, true, false, some (docker_cmd env.workdir)⟩
  | ProcOutcome.launchException =>
      -- the exception is not caught: it escapes the handler
      ⟨HandlerResult.exception, true, false, true, false,
        some (docker_cmd env.workdir)⟩
  | ProcOutcome.completed rc out err =>
      if rc == 124 || strContains err "Command terminated" then
        -- lines 87-88: inner-timeout classification; returns before cleanup
        ⟨HandlerResult.response (Body.errorMsg timeoutMsg) 200,
          true, false, true, false, some (docker_cmd env.workdir)⟩
      else
        -- lines 90-111: truncate, compose, clean up, respond
        ⟨HandlerResult.response (Body.fields (capOutput out) (capOutput err) rc) 200,
          true, true, true, false, some (docker_cmd env.workdir)⟩

/-- Lines 20-111: the whole `/run` handler on a decoded request body. -/
def run_code (code : CodeField) (env : Env) : RunResult :=
  match code with
  | CodeField.nonString => rejected "Field \x27code\x27 must be a string."
  | CodeField.missing => rejected "No code provided."
  | CodeField.str s =>
      if s.length == 0 then rejected "No code provided."
      else if s.length > MAX_CHARS then
        rejected ("Code too long. Max " ++ toString MAX_CHARS ++ " characters allowed.")
      else run_accepted env

/-- Does the handler accept the request body (reach line 34)? -/
def accepts : CodeField → Bool
  | CodeField.str s => !(s.length == 0) && !(s.length > MAX_CHARS)
  | _ => false

/-- Whether the workspace directory/file still exist on disk after the
handler returns: they were created, and the cleanup block either never
ran or its removals failed. -/
def workspaceExistsAfter (r : RunResult) (removeOk : Bool) : Bool :=
  r.workspaceCreated && !(r.cleanupExecuted && removeOk)

/-- A 10001-character stream, used to exercise the truncation branch. -/
def longOut : String := String.mk (List.replicate 10001 'a')

/-- A 5001-character source text, above the MAX_CHARS ceiling. -/
def longCode : String := String.mk (List.replicate 5001 'a')

theorem longOut_length : longOut.length = 10001 := by
  show (List.replicate 10001 'a').length = 10001
  rw [List.length_replicate]

theorem longCode_length : longCode.length = 5001 := by
  show (List.replicate 5001 'a').length = 5001
  rw [List.length_replicate]

theorem run_code_eq_run_accepted (code : CodeField) (env : Env)
    (h : accepts code = true) : run_code code env = run_accepted env := by
  cases code with
  | missing => simp [accepts] at h
  | nonString => simp [accepts] at h
  | str s =>
      simp only [accepts, Bool.and_eq_true, Bool.not_eq_true',
        decide_eq_false_iff_not] at h
      simp [run_code, h.1, h.2]

theorem strTake_length (s : String) (n : Nat) (h : n ≤ s.length) :
    (strTake s n).length = n := by
  show (s.data.take n).length = n
  have hs : s.length = s.data.length := rfl
  rw [List.length_take]
  omega

/-- C8: the outer supervisory timeout passed to `subprocess.run` is
strictly greater than the inner wall-clock timeout handed to the
in-sandbox `timeout` wrapper, exceeding it by the fixed margin 2
(12 seconds versus 10 seconds). -/
theorem C8_outer_timeout_margin :
    TIMEOUT_SECONDS = 10 ∧ OUTER_TIMEOUT = 12 ∧
    OUTER_TIMEOUT = TIMEOUT_SECONDS + 2 ∧ TIMEOUT_SECONDS < OUTER_TIMEOUT := by
  decide

/-- C1: fails on the code. On both timeout exit paths (inner-timeout
classification with sentinel exit code 124, and an outer
`subprocess.TimeoutExpired`) the handler returns before the cleanup block
at lines 105-109 runs, so the workspace directory and the script file
remain on disk even though removal would have succeeded; only the
normal-completion path removes them. -/
theorem C1_workspace_leak_on_timeout :
    workspaceExistsAfter
      (run_code (CodeField.str "while True: pass")
        ⟨"/tmp/exec_1", ProcOutcome.completed 124 "" "", true⟩) true = true ∧
    workspaceExistsAfter
      (run_code (CodeField.str "while True: pass")
        ⟨"/tmp/exec_2", ProcOutcome.timeoutExpired, true⟩) true = true ∧
    workspaceExistsAfter
      (run_code (CodeField.str "print(1)")
        ⟨"/tmp/exec_3", ProcOutcome.completed 0 "hi\n" "", true⟩) true = false := by
  decide

/-- C3: fails on the code. When the outer supervisory timeout fires
(`subprocess.TimeoutExpired`), the handler immediately returns the
timeout response; no kill or stop command for the container is ever
issued, despite the comment at line 79 announcing a best-effort kill, so
the container is abandoned rather than terminated. -/
theorem C3_no_kill_on_outer_timeout :
    (run_code (CodeField.str "while True: pass")
        ⟨"/tmp/exec_4", ProcOutcome.timeoutExpired, true⟩).result =
      HandlerResult.response (Body.errorMsg timeoutMsg) 200 ∧
    (run_code (CodeField.str "while True: pass")
        ⟨"/tmp/exec_4", ProcOutcome.timeoutExpired, true⟩).killIssued = false := by
  decide

/-- The stderr text the docker client emits when the docker daemon is
unreachable (a launch failure): the client exits with status 125. -/
def daemonDownStderr : String :=
  "docker: Cannot connect to the Docker daemon at unix:///var/run/docker.sock. Is the docker daemon running?"

/-- C5 counterexample: a launch failure that the docker client reports
through its own exit status (daemon unreachable, exit code 125) is passed
through as a normal HTTP 200 outcome whose stderr and exit_code are the
docker client ones, presented exactly as if the submitted program had
failed, not as a server-side error. -/
theorem C5_launch_failure_counterexample :
    (run_code (CodeField.str "print(1)")
        ⟨"/tmp/exec_5", ProcOutcome.completed 125 "" daemonDownStderr, true⟩).result =
      HandlerResult.response (Body.fields "" daemonDownStderr 125) 200 := by
  decide

/-- C5 amended: a launch failure that raises an exception in the
`subprocess.run` call (for example, the docker binary missing) escapes
the handler uncaught, surfacing as a server-side error distinct from a
timeout; but a launch failure the docker client reports through its exit
status and stderr (daemon unavailable, image missing, malformed
invocation) is passed through as a normal outcome, indistinguishable from
a failure of the submitted program. -/
theorem C5_launch_failure_amended (code : CodeField) (env : Env)
    (hacc : accepts code = true) :
    (env.proc = ProcOutcome.launchException →
       (run_code code env).result = HandlerResult.exception) ∧
    (∀ rc out err, env.proc = ProcOutcome.completed rc out err →
       (rc == 124 || strContains err "Command terminated") = false →
       (run_code code env).result =
         HandlerResult.response (Body.fields (capOutput out) (capOutput err) rc) 200) := by
  rw [run_code_eq_run_accepted code env hacc]
  constructor
  · intro hp
    simp [run_accepted, hp]
  · intro rc out err hp hcls
    simp [run_accepted, hp, hcls]

/-- C5 amended, witness: the exception path at a concrete input, and the
pass-through path at the daemon-down outcome. -/
theorem C5_launch_failure_amended_witness :
    (run_code (CodeField.str "print(1)")
        ⟨"/tmp/exec_5b", ProcOutcome.launchException, true⟩).result =
      HandlerResult.exception ∧
    (run_code (CodeField.str "print(1)")
        ⟨"/tmp/exec_5c", ProcOutcome.completed 125 "" daemonDownStderr, true⟩).result =
      HandlerResult.response
        (Body.fields (capOutput "") (capOutput daemonDownStderr) 125) 200 :=
  ⟨(C5_launch_failure_amended (CodeField.str "print(1)")
      ⟨"/tmp/exec_5b", ProcOutcome.launchException, true⟩ (by decide)).1 rfl,
   (C5_launch_failure_amended (CodeField.str "print(1)")
      ⟨"/tmp/exec_5c", ProcOutcome.completed 125 "" daemonDownStderr, true⟩
      (by decide)).2 125 "" daemonDownStderr rfl (by decide)⟩

/-- C2: every timeout — the outer supervisory timeout
(`subprocess.TimeoutExpired`), the sentinel exit code 124, or the
diagnostic substring "Command terminated" on stderr — is classified as a
timeout and returned as HTTP status 200 with the human-readable message
that cites the configured inner timeout seconds, never as a
protocol-level failure. -/
theorem C2_timeout_is_http_success (code : CodeField) (env : Env)
    (hacc : accepts code = true)
    (h : env.proc = ProcOutcome.timeoutExpired ∨
         ∃ rc out err, env.proc = ProcOutcome.completed rc out err ∧
           (rc = 124 ∨ strContains err "Command terminated" = true)) :
    (run_code code env).result =
      HandlerResult.response (Body.errorMsg timeoutMsg) 200 ∧
    timeoutMsg =
      "Execution timed out after " ++ toString TIMEOUT_SECONDS ++ " seconds." := by
  rw [run_code_eq_run_accepted code env hacc]
  refine ⟨?_, rfl⟩
  rcases h with hp | ⟨rc, out, err, hp, hcls⟩
  · simp [run_accepted, hp]
  · have hb : (rc == 124 || strContains err "Command terminated") = true := by
      rcases hcls with h124 | hsub
      · simp [h124]
      · simp [hsub]
    simp [run_accepted, hp, hb]

/-- C2 witness: the outer timeout at a concrete accepted request. -/
theorem C2_timeout_is_http_success_witness :
    (run_code (CodeField.str "while True: pass")
        ⟨"/tmp/exec_2a", ProcOutcome.timeoutExpired, true⟩).result =
      HandlerResult.response (Body.errorMsg timeoutMsg) 200 ∧
    timeoutMsg =
      "Execution timed out after " ++ toString TIMEOUT_SECONDS ++ " seconds." :=
  C2_timeout_is_http_success (CodeField.str "while True: pass")
    ⟨"/tmp/exec_2a", ProcOutcome.timeoutExpired, true⟩ (by decide) (Or.inl rfl)

/-- C4: each stream is capped independently at MAX_OUTPUT = 10000
characters. Text longer than the ceiling becomes exactly its first 10000
characters followed by the fixed marker, so its length is the ceiling
plus the marker length regardless of the input length; text at or below
the ceiling is unchanged; and in the normal-outcome response each stream
is mapped through capOutput on its own, so truncating one stream never
alters the other. -/
theorem C4_output_truncation (s : String) :
    (s.length > MAX_OUTPUT →
       capOutput s = strTake s MAX_OUTPUT ++ truncMarker ∧
       (capOutput s).length = MAX_OUTPUT + truncMarker.length) ∧
    (s.length ≤ MAX_OUTPUT → capOutput s = s) ∧
    (∀ code env rc out err, accepts code = true →
       env.proc = ProcOutcome.completed rc out err →
       (rc == 124 || strContains err "Command terminated") = false →
       (run_code code env).result =
         HandlerResult.response (Body.fields (capOutput out) (capOutput err) rc) 200) := by
  refine ⟨?_, ?_, ?_⟩
  · intro h
    have he : capOutput s = strTake s MAX_OUTPUT ++ truncMarker := by
      simp [capOutput, h]
    refine ⟨he, ?_⟩
    rw [he, String.length_append, strTake_length s MAX_OUTPUT (Nat.le_of_lt h)]
  · intro h
    simp [capOutput]
    omega
  · intro code env rc out err hacc hp hcls
    rw [run_code_eq_run_accepted code env hacc]
    simp [run_accepted, hp, hcls]

/-- C4 witness: a 10001-character stream is cut to 10000 characters plus
the 17-character marker; a short stream is unchanged; a concrete normal
outcome carries both capped streams. -/
theorem C4_output_truncation_witness :
    capOutput longOut = strTake longOut MAX_OUTPUT ++ truncMarker ∧
    (capOutput longOut).length = MAX_OUTPUT + truncMarker.length ∧
    capOutput "abc" = "abc" ∧
    (run_code (CodeField.str "print(1)")
        ⟨"/tmp/exec_4a", ProcOutcome.completed 0 "hi\n" "oops", true⟩).result =
      HandlerResult.response (Body.fields (capOutput "hi\n") (capOutput "oops") 0) 200 := by
  have hlong : longOut.length > MAX_OUTPUT := by
    rw [longOut_length]; decide
  refine ⟨((C4_output_truncation longOut).1 hlong).1,
          ((C4_output_truncation longOut).1 hlong).2,
          (C4_output_truncation "abc").2.1 (by decide), ?_⟩
  exact (C4_output_truncation "").2.2 (CodeField.str "print(1)")
    ⟨"/tmp/exec_4a", ProcOutcome.completed 0 "hi\n" "oops", true⟩
    0 "hi\n" "oops" (by decide) rfl (by decide)

/-- C6 counterexample: on a timeout the handler does not return the
three-field `{stdout, stderr, exit_code}` shape with a null exit status;
it returns the single-field `{"error": message}` body instead. -/
theorem C6_timeout_shape_counterexample :
    (run_code (CodeField.str "while True: pass")
        ⟨"/tmp/exec_6", ProcOutcome.timeoutExpired, true⟩).result =
      HandlerResult.response (Body.errorMsg timeoutMsg) 200 ∧
    Body.isFields (Body.errorMsg timeoutMsg) = false := by
  decide

/-- C6 amended: a non-timeout completed outcome is serialized as the
three-field `{stdout, stderr, exit_code}` body, passing the (truncated)
captured streams and the exit status through unmodified, with HTTP 200;
a timeout outcome — the outer `subprocess.TimeoutExpired` as well as the
inner-timeout classification (exit code 124 or the sentinel stderr
text) — is instead serialized as the single-field `{"error": message}`
body, also with HTTP 200, carrying no stdout, stderr or exit_code
fields. -/
theorem C6_response_serialization (code : CodeField) (env : Env)
    (hacc : accepts code = true) :
    (∀ rc out err, env.proc = ProcOutcome.completed rc out err →
       (rc == 124 || strContains err "Command terminated") = false →
       (run_code code env).result =
         HandlerResult.response (Body.fields (capOutput out) (capOutput err) rc) 200) ∧
    (env.proc = ProcOutcome.timeoutExpired →
       (run_code code env).result =
         HandlerResult.response (Body.errorMsg timeoutMsg) 200 ∧
       Body.isFields (Body.errorMsg timeoutMsg) = false) ∧
    (∀ rc out err, env.proc = ProcOutcome.completed rc out err →
       (rc == 124 || strContains err "Command terminated") = true →
       (run_code code env).result =
         HandlerResult.response (Body.errorMsg timeoutMsg) 200 ∧
       Body.isFields (Body.errorMsg timeoutMsg) = false) := by
  rw [run_code_eq_run_accepted code env hacc]
  refine ⟨?_, ?_, ?_⟩
  · intro rc out err hp hcls
    simp [run_accepted, hp, hcls]
  · intro hp
    exact ⟨by simp [run_accepted, hp], rfl⟩
  · intro rc out err hp hcls
    exact ⟨by simp [run_accepted, hp, hcls], rfl⟩

/-- C6 amended, witness: all three serialization shapes at concrete
inputs — a normal outcome, an outer timeout, and an inner timeout
(exit code 124). -/
theorem C6_response_serialization_witness :
    (run_code (CodeField.str "print(1)")
        ⟨"/tmp/exec_6b", ProcOutcome.completed 0 "hi\n" "", true⟩).result =
      HandlerResult.response (Body.fields (capOutput "hi\n") (capOutput "") 0) 200 ∧
    (run_code (CodeField.str "while True: pass")
        ⟨"/tmp/exec_6c", ProcOutcome.timeoutExpired, true⟩).result =
      HandlerResult.response (Body.errorMsg timeoutMsg) 200 ∧
    (run_code (CodeField.str "while True: pass")
        ⟨"/tmp/exec_6d", ProcOutcome.completed 124 "" "", true⟩).result =
      HandlerResult.response (Body.errorMsg timeoutMsg) 200 :=
  ⟨(C6_response_serialization (CodeField.str "print(1)")
      ⟨"/tmp/exec_6b", ProcOutcome.completed 0 "hi\n" "", true⟩ (by decide)).1
      0 "hi\n" "" rfl (by decide),
   ((C6_response_serialization (CodeField.str "while True: pass")
      ⟨"/tmp/exec_6c", ProcOutcome.timeoutExpired, true⟩ (by decide)).2.1 rfl).1,
   ((C6_response_serialization (CodeField.str "while True: pass")
      ⟨"/tmp/exec_6d", ProcOutcome.completed 124 "" "", true⟩ (by decide)).2.2
      124 "" "" rfl (by decide)).1⟩

/-- C7: for every accepted request, and whatever the subprocess outcome,
the docker invocation the handler hands to `subprocess.run` is exactly
the fixed hardened vector: automatic removal on exit (`--rm`), network
disabled (`--network none`), a memory ceiling, a process-count ceiling,
a CPU share cap, a read-only root filesystem, the source file mounted
read-only at the fixed path /app/script.py, and a separate writable
mount — and it is determined by the workspace path alone, never by the
untrusted source text. -/
theorem C7_fixed_hardening (code : CodeField) (env : Env)
    (hacc : accepts code = true) :
    (run_code code env).dockerInvocation = some (docker_cmd env.workdir) ∧
    docker_cmd env.workdir =
      ["docker", "run", "--rm",
       "--network", "none",
       "--memory", "128m",
       "--pids-limit", "64",
       "--cpus", "0.5",
       "--read-only",
       "-v", env.workdir ++ "/script.py" ++ ":/app/script.py:ro",
       "-v", env.workdir ++ ":/app/writable",
       "python:3.11-slim", "timeout", "10",
       "python", "-u", "/app/script.py"] := by
  rw [run_code_eq_run_accepted code env hacc]
  obtain ⟨wd, p, ok⟩ := env
  refine ⟨?_, rfl⟩
  cases p with
  | completed rc out err =>
      dsimp [run_accepted]
      split <;> rfl
  | timeoutExpired => rfl
  | launchException => rfl

/-- C7 witness: the invocation at a concrete accepted request. -/
theorem C7_fixed_hardening_witness :
    (run_code (CodeField.str "print(1)")
        ⟨"/tmp/exec_7", ProcOutcome.completed 0 "" "", true⟩).dockerInvocation =
      some (docker_cmd "/tmp/exec_7") ∧
    docker_cmd "/tmp/exec_7" =
      ["docker", "run", "--rm",
       "--network", "none",
       "--memory", "128m",
       "--pids-limit", "64",
       "--cpus", "0.5",
       "--read-only",
       "-v", "/tmp/exec_7" ++ "/script.py" ++ ":/app/script.py:ro",
       "-v", "/tmp/exec_7" ++ ":/app/writable",
       "python:3.11-slim", "timeout", "10",
       "python", "-u", "/app/script.py"] :=
  C7_fixed_hardening (CodeField.str "print(1)")
    ⟨"/tmp/exec_7", ProcOutcome.completed 0 "" "", true⟩ (by decide)

/-- C9: for every request whose code field is missing, not a string,
empty, or longer than MAX_CHARS = 5000 characters, the handler returns
an HTTP 400 error response and performs no side effects: no workspace is
created, no cleanup runs, and no container is launched. -/
theorem C9_validation_rejects (env : Env) :
    run_code CodeField.missing env = rejected "No code provided." ∧
    run_code CodeField.nonString env =
      rejected "Field \x27code\x27 must be a string." ∧
    (∀ s : String, s.length = 0 →
       run_code (CodeField.str s) env = rejected "No code provided.") ∧
    (∀ s : String, s.length > MAX_CHARS →
       run_code (CodeField.str s) env =
         rejected "Code too long. Max 5000 characters allowed.") ∧
    (∀ msg, (rejected msg).result =
         HandlerResult.response (Body.errorMsg msg) 400 ∧
       (rejected msg).workspaceCreated = false ∧
       (rejected msg).containerInvoked = false ∧
       (rejected msg).cleanupExecuted = false) := by
  refine ⟨rfl, rfl, ?_, ?_, fun msg => ⟨rfl, rfl, rfl, rfl⟩⟩
  · intro s h
    simp [run_code, h]
  · intro s h
    have h0 : ¬ (s.length = 0) := by omega
    simp [run_code, h0, h]
    rfl

/-- C9 witness: the four rejection cases at concrete inputs. -/
theorem C9_validation_rejects_witness :
    run_code CodeField.missing
      ⟨"/tmp/exec_9", ProcOutcome.completed 0 "" "", true⟩ =
      rejected "No code provided." ∧
    run_code CodeField.nonString
      ⟨"/tmp/exec_9", ProcOutcome.completed 0 "" "", true⟩ =
      rejected "Field \x27code\x27 must be a string." ∧
    run_code (CodeField.str "")
      ⟨"/tmp/exec_9", ProcOutcome.completed 0 "" "", true⟩ =
      rejected "No code provided." ∧
    run_code (CodeField.str longCode)
      ⟨"/tmp/exec_9", ProcOutcome.completed 0 "" "", true⟩ =
      rejected "Code too long. Max 5000 characters allowed." :=
  ⟨(C9_validation_rejects ⟨"/tmp/exec_9", ProcOutcome.completed 0 "" "", true⟩).1,
   (C9_validation_rejects ⟨"/tmp/exec_9", ProcOutcome.completed 0 "" "", true⟩).2.1,
   (C9_validation_rejects ⟨"/tmp/exec_9", ProcOutcome.completed 0 "" "", true⟩).2.2.1
     "" rfl,
   (C9_validation_rejects ⟨"/tmp/exec_9", ProcOutcome.completed 0 "" "", true⟩).2.2.2.1
     longCode (by rw [gt_iff_lt, longCode_length]; decide)⟩

/-- C10: timeout classification looks only at the exit code and a stderr
substring test. A run whose captured stderr contains the text
"Command terminated" is classified and reported as a timeout even when
the program completed with exit code 0 and printed that text itself, and
its real stdout, stderr and exit status are discarded: the response is
the single-field error body. -/
theorem C10_sentinel_text_hijacks (code : CodeField) (env : Env)
    (hacc : accepts code = true) (rc : Int) (out err : String)
    (hp : env.proc = ProcOutcome.completed rc out err)
    (hsub : strContains err "Command terminated" = true) :
    (run_code code env).result =
      HandlerResult.response (Body.errorMsg timeoutMsg) 200 ∧
    Body.isFields (Body.errorMsg timeoutMsg) = false := by
  rw [run_code_eq_run_accepted code env hacc]
  have hb : (rc == 124 || strContains err "Command terminated") = true := by
    simp [hsub]
  exact ⟨by simp [run_accepted, hp, hb], rfl⟩

/-- C10 witness: a run that exited 0 with real stdout, whose stderr it
printed itself, is reported as a timeout. -/
theorem C10_sentinel_text_hijacks_witness :
    (run_code (CodeField.str "print(0)")
        ⟨"/tmp/exec_10",
          ProcOutcome.completed 0 "real output\n" "Command terminated", true⟩).result =
      HandlerResult.response (Body.errorMsg timeoutMsg) 200 ∧
    Body.isFields (Body.errorMsg timeoutMsg) = false :=
  C10_sentinel_text_hijacks (CodeField.str "print(0)")
    ⟨"/tmp/exec_10",
      ProcOutcome.completed 0 "real output\n" "Command terminated", true⟩
    (by decide) 0 "real output\n" "Command terminated" rfl (by decide)

end App

